import Mathlib

/-!
Verification of the `PretrainedWav2Vec2Frontend` component
(`src/fairseq2/models/wav2vec2/pretrained_frontend.py`).

The component is a conditional pipeline over optional sub-stages.  The
numeric kernels (layer normalization, linear projection, dropout) and the
pluggable capabilities (feature extractor, position encoder) are external
collaborators; they are modelled as abstract functions.  Floating-point
configuration values (dropout probabilities, epsilon) are modelled as
rationals, which preserves the only operations the component performs on
them (comparison with zero and pass-through storage).
-/

namespace Wav2Vec2

/-- Device placement hint (opaque to this component). -/
inductive Device where
  | cpu : Device
  | cuda : Nat → Device
deriving DecidableEq

/-- Numeric-precision placement hint (opaque to this component). -/
inductive DType where
  | float32 : DType
  | float16 : DType
deriving DecidableEq

/-- A batched sequence tensor of shape batch × time × feature-dim. -/
structure Tensor3 where
  batch : Nat
  time : Nat
  dim : Nat
  entry : Nat → Nat → Nat → Rat

/-- Per-item valid lengths accompanying a batch. -/
abbrev SeqLens := List Nat

/-- A padding mask: one boolean row per batch item, `true` marking a
padding (invalid) position. -/
abbrev PaddingMask := List (List Bool)

/-- The opaque incremental-state handle; this component only tests its
presence. -/
structure IncrementalStateBag where
  mk ::

/-- The feature-extractor capability: exposes `out_dim` and maps a
sequence batch with lengths to an extracted batch with lengths. -/
structure SequenceFeatureExtractor where
  out_dim : Nat
  apply : Tensor3 → Option SeqLens → Tensor3 × Option SeqLens

/-- The position-encoder capability: exposes `dim` and maps a sequence
batch together with a padding mask to a new sequence batch. -/
structure PositionEncoder where
  dim : Nat
  apply : Tensor3 → Option PaddingMask → Tensor3

/-- A `torch.nn.LayerNorm` module as constructed by the frontend: the
constructor arguments it receives.  Its numeric behaviour is external. -/
structure LayerNorm where
  normalized_shape : Nat
  eps : Rat
  device : Option Device
  dtype : Option DType
deriving DecidableEq

/-- A `fairseq2.nn.projection.Linear` module as constructed by the
frontend: the constructor arguments it receives. -/
structure Linear where
  input_dim : Nat
  output_dim : Nat
  bias : Bool
  device : Option Device
  dtype : Option DType
deriving DecidableEq

/-- A `torch.nn.Dropout` module as constructed by the frontend: the
constructor receives only the dropout probability. -/
structure Dropout where
  p : Rat
deriving DecidableEq

/-- The numeric semantics of the external kernels, abstracted: how a
layer norm, a linear projection and a dropout module act on a tensor. -/
structure Externals where
  layerNormApply : LayerNorm → Tensor3 → Tensor3
  linearApply : Linear → Tensor3 → Tensor3
  dropoutApply : Dropout → Tensor3 → Tensor3

/-- The frontend's fields, exactly the attributes of
`PretrainedWav2Vec2Frontend` (`model_dim` is stored by the
`TransformerFrontend` base constructor). -/
structure PretrainedWav2Vec2Frontend where
  model_dim : Nat
  feature_extractor : Option SequenceFeatureExtractor
  post_extract_layer_norm : LayerNorm
  post_extract_proj : Option Linear
  post_extract_dropout : Option Dropout
  pos_encoder : Option PositionEncoder
  layer_norm : Option LayerNorm
  dropout : Option Dropout

/-- The error message raised when the supplied position encoder's `dim`
differs from `model_dim`, exactly as formatted by the source. -/
def posEncoderDimMsg (d m : Nat) : String :=
  "`dim` of `pos_encoder` and `model_dim` must be equal, but are "
    ++ toString d ++ " and " ++ toString m ++ " instead."

/-- The error message raised when an incremental-state handle is passed
to `forward`, exactly as in the source. -/
def incrementalMsg : String :=
  "`PretrainedWav2Vec2Frontend` does not support incremental evaluation."

/-- Translation of `PretrainedWav2Vec2Frontend.__init__` from the source.
Construction either fails with a `ValueError` message or produces the
frontend record. -/
def init (model_dim : Nat) (feature_extractor : Option SequenceFeatureExtractor)
    (pos_encoder : Option PositionEncoder) (post_extract_dropout_p : Rat)
    (layer_norm : Bool) (dropout_p : Rat) (norm_eps : Rat)
    (device : Option Device) (dtype : Option DType) :
    Except String PretrainedWav2Vec2Frontend :=
  let feature_dim :=
    match feature_extractor with
    | some fe => fe.out_dim
    | none => model_dim
  let post_extract_layer_norm : LayerNorm :=
    ⟨feature_dim, norm_eps, device, dtype⟩
  let post_extract_proj : Option Linear :=
    if feature_dim ≠ model_dim then
      some ⟨feature_dim, model_dim, true, device, dtype⟩
    else
      none
  let post_extract_dropout : Option Dropout :=
    if 0 < post_extract_dropout_p then some ⟨post_extract_dropout_p⟩ else none
  match pos_encoder with
  | some pe =>
    if pe.dim ≠ model_dim then
      .error (posEncoderDimMsg pe.dim model_dim)
    else
      .ok ⟨model_dim, feature_extractor, post_extract_layer_norm,
           post_extract_proj, post_extract_dropout, some pe,
           if layer_norm then some ⟨model_dim, norm_eps, device, dtype⟩ else none,
           if 0 < dropout_p then some ⟨dropout_p⟩ else none⟩
  | none =>
      .ok ⟨model_dim, feature_extractor, post_extract_layer_norm,
           post_extract_proj, post_extract_dropout, none,
           if layer_norm then some ⟨model_dim, norm_eps, device, dtype⟩ else none,
           if 0 < dropout_p then some ⟨dropout_p⟩ else none⟩

/-- Modelled from the spec: the padding-mask derivation utility
`fairseq2.nn.utils.mask.to_padding_mask` is consumed but not contained in
this repository excerpt.  Per the spec, it maps `(sequence, lengths)` to a
mask or an absent marker: absent when lengths are absent, otherwise a
batch × time boolean array marking positions at or beyond each item's
length as padding. -/
def to_padding_mask (seqs : Tensor3) (seq_lens : Option SeqLens) :
    Option PaddingMask :=
  match seq_lens with
  | none => none
  | some lens =>
      some (lens.map fun len => (List.range seqs.time).map fun j => decide (len ≤ j))

/-- Translation of `PretrainedWav2Vec2Frontend.forward` from the source.
The method does not assign to any attribute of `self`, which the
translation renders by threading the frontend value through unchanged;
the result component either fails with a `ValueError` message or yields
the transformed batch and the padding mask. -/
def forward (ext : Externals) (self : PretrainedWav2Vec2Frontend)
    (seqs : Tensor3) (seq_lens : Option SeqLens)
    (state_bag : Option IncrementalStateBag) :
    PretrainedWav2Vec2Frontend × Except String (Tensor3 × Option PaddingMask) :=
  match state_bag with
  | some _ => (self, .error incrementalMsg)
  | none =>
    let (seqs, seq_lens) :=
      match self.feature_extractor with
      | some fe => fe.apply seqs seq_lens
      | none => (seqs, seq_lens)
    let padding_mask := to_padding_mask seqs seq_lens
    let seqs := ext.layerNormApply self.post_extract_layer_norm seqs
    let seqs :=
      match self.post_extract_proj with
      | some proj => ext.linearApply proj seqs
      | none => seqs
    let seqs :=
      match self.post_extract_dropout with
      | some d => ext.dropoutApply d seqs
      | none => seqs
    let seqs :=
      match self.pos_encoder with
      | some pe => pe.apply seqs padding_mask
      | none => seqs
    let seqs :=
      match self.layer_norm with
      | some ln => ext.layerNormApply ln seqs
      | none => seqs
    let seqs :=
      match self.dropout with
      | some d => ext.dropoutApply d seqs
      | none => seqs
    (self, .ok (seqs, padding_mask))

/-- An optional stage acting on the sequence component: apply it when
present, identity pass-through when absent. -/
def applyOptStage {α : Type} (stage : Option α) (app : α → Tensor3 → Tensor3)
    (seqs : Tensor3) : Tensor3 :=
  match stage with
  | some s => app s seqs
  | none => seqs

/-- The optional feature-extraction stage: replaces both the sequence and
the lengths when present, identity pass-through when absent. -/
def extractStage (fe : Option SequenceFeatureExtractor) (seqs : Tensor3)
    (seq_lens : Option SeqLens) : Tensor3 × Option SeqLens :=
  match fe with
  | some f => f.apply seqs seq_lens
  | none => (seqs, seq_lens)

/-- The pipeline as the spec words it: the composition, in the fixed
order, of extraction, mask derivation, post-extraction layer norm,
projection, post-extraction dropout, positional encoding with the mask,
final layer norm and final dropout, each absent stage an identity. -/
def pipelineSpec (ext : Externals) (self : PretrainedWav2Vec2Frontend)
    (seqs : Tensor3) (seq_lens : Option SeqLens) : Tensor3 × Option PaddingMask :=
  let extracted := extractStage self.feature_extractor seqs seq_lens
  let mask := to_padding_mask extracted.1 extracted.2
  let s1 := ext.layerNormApply self.post_extract_layer_norm extracted.1
  let s2 := applyOptStage self.post_extract_proj ext.linearApply s1
  let s3 := applyOptStage self.post_extract_dropout ext.dropoutApply s2
  let s4 := applyOptStage self.pos_encoder (fun pe t => pe.apply t mask) s3
  let s5 := applyOptStage self.layer_norm ext.layerNormApply s4
  let s6 := applyOptStage self.dropout ext.dropoutApply s5
  (s6, mask)

/-- A forward call without incremental state computes exactly the staged
pipeline `pipelineSpec`. -/
lemma forward_none_eq_pipeline (ext : Externals)
    (self : PretrainedWav2Vec2Frontend) (seqs : Tensor3)
    (seq_lens : Option SeqLens) :
    (forward ext self seqs seq_lens none).2 =
      .ok (pipelineSpec ext self seqs seq_lens) := by
  obtain ⟨md, fe, peln, proj, pdrop, pe, ln, dr⟩ := self
  cases fe <;> cases proj <;> cases pdrop <;> cases pe <;> cases ln <;>
    cases dr <;> rfl

/-- Claim C1: for every configured frontend and every forward call, the
output equals the composition, in the fixed order, of feature extraction,
padding-mask derivation, the always-present post-extraction layer norm,
projection, post-extraction dropout, positional encoding with the mask,
final layer norm and final dropout, every absent stage being an identity
pass-through. -/
theorem forward_is_fixed_order_composition (ext : Externals)
    (self : PretrainedWav2Vec2Frontend) (seqs : Tensor3)
    (seq_lens : Option SeqLens) :
    (forward ext self seqs seq_lens none).2 =
      .ok (pipelineSpec ext self seqs seq_lens) :=
  forward_none_eq_pipeline ext self seqs seq_lens

/-- Claim C2: whenever the incremental-state argument is non-null, the
forward call fails with the unsupported-operation error; the result does
not depend on the external kernels, the configuration or the inputs, so
no sub-stage runs and no partial output is produced. -/
theorem forward_rejects_incremental_state (ext : Externals)
    (self : PretrainedWav2Vec2Frontend) (seqs : Tensor3)
    (seq_lens : Option SeqLens) (bag : IncrementalStateBag) :
    forward ext self seqs seq_lens (some bag) = (self, .error incrementalMsg) :=
  rfl

/-- Claim C9: the frontend's configuration is immutable across forward
calls: the frontend value after any call equals the value before it, and
a successive call on the returned frontend behaves exactly as a call on
the original. -/
theorem forward_preserves_frontend_state (ext : Externals)
    (self : PretrainedWav2Vec2Frontend) (seqs : Tensor3)
    (seq_lens : Option SeqLens) (bag : Option IncrementalStateBag)
    (seqs2 : Tensor3) (seq_lens2 : Option SeqLens)
    (bag2 : Option IncrementalStateBag) :
    (forward ext self seqs seq_lens bag).1 = self ∧
      forward ext (forward ext self seqs seq_lens bag).1 seqs2 seq_lens2 bag2 =
        forward ext self seqs2 seq_lens2 bag2 := by
  have h1 : (forward ext self seqs seq_lens bag).1 = self := by
    cases bag with
    | none => rfl
    | some b => rfl
  exact ⟨h1, by rw [h1]⟩

/-- Claim C3: construction fails precisely when a positional encoder is
supplied whose declared dimension differs from `model_dim`; the error
message then names both dimension values, and no other input makes
construction fail. -/
theorem init_pos_encoder_dim_validation (model_dim : Nat)
    (fe : Option SequenceFeatureExtractor) (pos_encoder : Option PositionEncoder)
    (p1 : Rat) (lnf : Bool) (p2 : Rat) (eps : Rat) (dev : Option Device)
    (dt : Option DType) :
    ((∃ msg, init model_dim fe pos_encoder p1 lnf p2 eps dev dt = .error msg) ↔
        ∃ pe, pos_encoder = some pe ∧ pe.dim ≠ model_dim) ∧
      ∀ pe, pos_encoder = some pe → pe.dim ≠ model_dim →
        init model_dim fe pos_encoder p1 lnf p2 eps dev dt =
            .error (posEncoderDimMsg pe.dim model_dim) ∧
          (toString pe.dim).data <:+: (posEncoderDimMsg pe.dim model_dim).data ∧
          (toString model_dim).data <:+: (posEncoderDimMsg pe.dim model_dim).data := by
  constructor
  · constructor
    · rintro ⟨msg, hmsg⟩
      cases hpe : pos_encoder with
      | none =>
        rw [hpe] at hmsg
        simp [init] at hmsg
      | some pe =>
        refine ⟨pe, rfl, ?_⟩
        intro hdim
        rw [hpe] at hmsg
        simp [init, hdim] at hmsg
    · rintro ⟨pe, hpe, hdim⟩
      subst hpe
      exact ⟨posEncoderDimMsg pe.dim model_dim, by simp [init, hdim]⟩
  · intro pe hpe hdim
    subst hpe
    refine ⟨by simp [init, hdim], ?_, ?_⟩
    · exact ⟨("`dim` of `pos_encoder` and `model_dim` must be equal, but are ").data,
        (" and " ++ toString model_dim ++ " instead.").data,
        by simp [posEncoderDimMsg, String.data_append]⟩
    · exact ⟨("`dim` of `pos_encoder` and `model_dim` must be equal, but are "
          ++ toString pe.dim ++ " and ").data,
        (" instead.").data,
        by simp [posEncoderDimMsg, String.data_append]⟩

/-- Witness for C3 at `model_dim = 2` and a position encoder of dimension
3: construction fails with the message naming 3 and 2. -/
theorem init_pos_encoder_dim_validation_witness :
    init 2 none (some ⟨3, fun t _ => t⟩) 0 false 0 (1 / 100000) none none =
        .error (posEncoderDimMsg 3 2) ∧
      (toString (3 : Nat)).data <:+: (posEncoderDimMsg 3 2).data ∧
      (toString (2 : Nat)).data <:+: (posEncoderDimMsg 3 2).data :=
  (init_pos_encoder_dim_validation 2 none (some ⟨3, fun t _ => t⟩) 0 false 0
    (1 / 100000) none none).2 ⟨3, fun t _ => t⟩ rfl (by decide)

/-- Index-level description of the modelled padding mask: one row per
batch item, each row of length `seqs.time`, entry `j` of the row for an
item of length `len` true exactly when `len ≤ j`. -/
theorem to_padding_mask_indices (seqs : Tensor3) (lens : SeqLens)
    (rows : PaddingMask) (h : to_padding_mask seqs (some lens) = some rows) :
    rows.length = lens.length ∧
      ∀ (i len : Nat) (row : List Bool), lens[i]? = some len → rows[i]? = some row →
        row.length = seqs.time ∧
          ∀ (j : Nat) (b : Bool), row[j]? = some b → (b = true ↔ len ≤ j) := by
  simp only [to_padding_mask, Option.some.injEq] at h
  subst h
  refine ⟨by simp, ?_⟩
  intro i len row hlen hrow
  rw [List.getElem?_map, hlen] at hrow
  simp only [Option.map_some', Option.some.injEq] at hrow
  subst hrow
  refine ⟨by simp, ?_⟩
  intro j b hb
  rw [List.getElem?_map] at hb
  by_cases hj : j < seqs.time
  · rw [List.getElem?_range hj] at hb
    simp only [Option.map_some', Option.some.injEq] at hb
    subst hb
    simp
  · rw [List.getElem?_eq_none (by simpa using Nat.le_of_not_lt hj)] at hb
    simp at hb

/-- External kernels that act as identities; used to build concrete
instances. -/
def extId : Externals :=
  ⟨fun _ t => t, fun _ t => t, fun _ t => t⟩

/-- A concrete 2 × 3 × 4 zero tensor. -/
def tensor234 : Tensor3 :=
  ⟨2, 3, 4, fun _ _ _ => 0⟩

/-- The frontend built with no optional stage at all: `model_dim = 4`, no
extractor, zero dropout probabilities, no final norm, no position
encoder. -/
def frontendMin : PretrainedWav2Vec2Frontend :=
  ⟨4, none, ⟨4, 1 / 100000, none, none⟩, none, none, none, none, none⟩

/-- Claim C4: the padding mask is derived from the batch and lengths as
they stand after feature extraction; absent lengths yield an absent mask,
and given lengths yield one row per item whose length equals the
post-extraction time dimension, marking exactly the positions at or after
each item's length as invalid. -/
theorem forward_mask_from_post_extraction (ext : Externals)
    (self : PretrainedWav2Vec2Frontend) (seqs : Tensor3)
    (seq_lens : Option SeqLens) :
    (∃ out, (forward ext self seqs seq_lens none).2 =
        .ok (out, to_padding_mask (extractStage self.feature_extractor seqs seq_lens).1
              (extractStage self.feature_extractor seqs seq_lens).2)) ∧
      ((extractStage self.feature_extractor seqs seq_lens).2 = none →
        to_padding_mask (extractStage self.feature_extractor seqs seq_lens).1
            (extractStage self.feature_extractor seqs seq_lens).2 = none) ∧
      ∀ (lens : SeqLens) (rows : PaddingMask),
        (extractStage self.feature_extractor seqs seq_lens).2 = some lens →
        to_padding_mask (extractStage self.feature_extractor seqs seq_lens).1
            (some lens) = some rows →
        rows.length = lens.length ∧
          ∀ (i len : Nat) (row : List Bool), lens[i]? = some len →
            rows[i]? = some row →
            row.length = (extractStage self.feature_extractor seqs seq_lens).1.time ∧
              ∀ (j : Nat) (b : Bool), row[j]? = some b → (b = true ↔ len ≤ j) := by
  refine ⟨⟨(pipelineSpec ext self seqs seq_lens).1, ?_⟩, ?_, ?_⟩
  · rw [forward_none_eq_pipeline]
    exact congrArg Except.ok (Prod.ext rfl rfl)
  · intro h
    rw [h]
    rfl
  · intro lens rows _ hr
    exact to_padding_mask_indices _ lens rows hr

/-- Witness for C4 on a 2 × 3 × 4 batch with lengths `[3, 1]` through the
stage-free frontend: the second item's mask row is invalid from position
1 on. -/
theorem forward_mask_from_post_extraction_witness :
    ([[false, false, false], [false, true, true]] : PaddingMask).length =
        ([3, 1] : SeqLens).length ∧
      ([false, true, true] : List Bool).length = tensor234.time ∧
      (true = true ↔ 1 ≤ 2) := by
  have h := (forward_mask_from_post_extraction extId frontendMin tensor234
      (some [3, 1])).2.2 [3, 1] [[false, false, false], [false, true, true]]
      rfl rfl
  refine ⟨h.1, ?_, ?_⟩
  · exact (h.2 1 1 [false, true, true] rfl rfl).1
  · exact (h.2 1 1 [false, true, true] rfl rfl).2 2 true rfl

/-- The feature dimension determined at construction: the extractor's
declared output dimension when an extractor is supplied, `model_dim`
otherwise. -/
def featureDim (fe : Option SequenceFeatureExtractor) (model_dim : Nat) : Nat :=
  match fe with
  | some f => f.out_dim
  | none => model_dim

/-- Inversion for a successful construction: the frontend a successful
`init` produces is determined field by field. -/
lemma init_ok_inv (model_dim : Nat) (fe : Option SequenceFeatureExtractor)
    (pe : Option PositionEncoder) (p1 : Rat) (lnf : Bool) (p2 : Rat)
    (eps : Rat) (dev : Option Device) (dt : Option DType)
    (f : PretrainedWav2Vec2Frontend)
    (h : init model_dim fe pe p1 lnf p2 eps dev dt = .ok f) :
    f = ⟨model_dim, fe,
         ⟨featureDim fe model_dim, eps, dev, dt⟩,
         if featureDim fe model_dim ≠ model_dim then
           some ⟨featureDim fe model_dim, model_dim, true, dev, dt⟩
         else none,
         if 0 < p1 then some ⟨p1⟩ else none,
         pe,
         if lnf then some ⟨model_dim, eps, dev, dt⟩ else none,
         if 0 < p2 then some ⟨p2⟩ else none⟩ := by
  cases pe with
  | none =>
    cases fe with
    | none => simpa [init, featureDim] using h.symm
    | some fx => simpa [init, featureDim] using h.symm
  | some pe' =>
    by_cases hd : pe'.dim = model_dim
    · cases fe with
      | none => simpa [init, featureDim, hd] using h.symm
      | some fx => simpa [init, featureDim, hd] using h.symm
    · cases fe with
      | none => simp [init, featureDim, hd] at h
      | some fx => simp [init, featureDim, hd] at h

/-- Claim C5: at construction, the feature dimension equals the supplied
extractor's declared output dimension and `model_dim` otherwise; the
projection exists exactly when that dimension differs from `model_dim`,
in which case it is the bias-enabled linear map from the feature
dimension to `model_dim`; with no extractor the projection is absent. -/
theorem init_feature_dim_and_projection (model_dim : Nat)
    (fe : Option SequenceFeatureExtractor) (pe : Option PositionEncoder)
    (p1 : Rat) (lnf : Bool) (p2 : Rat) (eps : Rat) (dev : Option Device)
    (dt : Option DType) (f : PretrainedWav2Vec2Frontend)
    (h : init model_dim fe pe p1 lnf p2 eps dev dt = .ok f) :
    f.post_extract_layer_norm.normalized_shape = featureDim fe model_dim ∧
      (f.post_extract_proj.isSome ↔ featureDim fe model_dim ≠ model_dim) ∧
      (∀ pj, f.post_extract_proj = some pj →
          pj = ⟨featureDim fe model_dim, model_dim, true, dev, dt⟩) ∧
      (fe = none →
        featureDim fe model_dim = model_dim ∧ f.post_extract_proj = none) := by
  obtain rfl := init_ok_inv model_dim fe pe p1 lnf p2 eps dev dt f h
  refine ⟨rfl, ?_, ?_, ?_⟩
  · by_cases hfd : featureDim fe model_dim = model_dim <;> simp [hfd]
  · intro pj hpj
    by_cases hfd : featureDim fe model_dim = model_dim <;> simp [hfd] at hpj
    exact hpj.symm
  · intro hfe
    subst hfe
    simp [featureDim]

/-- The extractor used in concrete instances: declared output dimension
4, identity behaviour. -/
def fe4 : SequenceFeatureExtractor :=
  ⟨4, fun t l => (t, l)⟩

/-- The frontend `init 6 (some fe4) none 0 false 0 (1 / 100000) none none`
produces: extractor of dimension 4, so a 4 → 6 projection is present. -/
def frontend46 : PretrainedWav2Vec2Frontend :=
  ⟨6, some fe4, ⟨4, 1 / 100000, none, none⟩, some ⟨4, 6, true, none, none⟩,
   none, none, none, none⟩

/-- Witness for C5: constructing with an extractor of dimension 4 and
`model_dim = 6` yields feature dimension 4 and a bias-enabled 4 → 6
projection. -/
theorem init_feature_dim_and_projection_witness :
    frontend46.post_extract_layer_norm.normalized_shape =
        featureDim (some fe4) 6 ∧
      (frontend46.post_extract_proj.isSome ↔ featureDim (some fe4) 6 ≠ 6) ∧
      (∀ pj, frontend46.post_extract_proj = some pj →
          pj = ⟨featureDim (some fe4) 6, 6, true, none, none⟩) ∧
      (some fe4 = none →
        featureDim (some fe4) 6 = 6 ∧ frontend46.post_extract_proj = none) :=
  init_feature_dim_and_projection 6 (some fe4) none 0 false 0 (1 / 100000)
    none none frontend46 rfl

/-- Claim C6: the post-extraction dropout stage exists exactly when its
probability is positive (and then carries that probability), the final
normalizer exists exactly when the `layer_norm` flag is set (and then
normalizes over `model_dim`), and the final dropout exists exactly when
its probability is positive (and then carries that probability). -/
theorem init_optional_stage_presence (model_dim : Nat)
    (fe : Option SequenceFeatureExtractor) (pe : Option PositionEncoder)
    (p1 : Rat) (lnf : Bool) (p2 : Rat) (eps : Rat) (dev : Option Device)
    (dt : Option DType) (f : PretrainedWav2Vec2Frontend)
    (h : init model_dim fe pe p1 lnf p2 eps dev dt = .ok f) :
    (f.post_extract_dropout.isSome ↔ 0 < p1) ∧
      (∀ d, f.post_extract_dropout = some d → d.p = p1) ∧
      (f.layer_norm.isSome ↔ lnf = true) ∧
      (∀ ln, f.layer_norm = some ln → ln = ⟨model_dim, eps, dev, dt⟩) ∧
      (f.dropout.isSome ↔ 0 < p2) ∧
      (∀ d, f.dropout = some d → d.p = p2) := by
  obtain rfl := init_ok_inv model_dim fe pe p1 lnf p2 eps dev dt f h
  refine ⟨?_, ?_, ?_, ?_, ?_, ?_⟩
  · by_cases h1 : 0 < p1 <;> simp [h1]
  · intro d hd
    by_cases h1 : 0 < p1 <;> simp [h1] at hd
    simp [hd.symm]
  · cases lnf <;> simp
  · intro ln hln
    cases lnf <;> simp at hln
    exact hln.symm
  · by_cases h2 : 0 < p2 <;> simp [h2]
  · intro d hd
    by_cases h2 : 0 < p2 <;> simp [h2] at hd
    simp [hd.symm]

/-- The frontend `init 5 none none (1 / 2) true (1 / 4) (1 / 100000) none
none` produces: both dropouts present, final layer norm present. -/
def frontend5 : PretrainedWav2Vec2Frontend :=
  ⟨5, none, ⟨5, 1 / 100000, none, none⟩, none, some ⟨1 / 2⟩, none,
   some ⟨5, 1 / 100000, none, none⟩, some ⟨1 / 4⟩⟩

/-- Witness for C6: with probabilities 1/2 and 1/4 and the final-norm
flag set, all three optional stages are present with the stated
parameters. -/
theorem init_optional_stage_presence_witness :
    (frontend5.post_extract_dropout.isSome ↔ (0 : Rat) < 1 / 2) ∧
      (∀ d, frontend5.post_extract_dropout = some d → d.p = 1 / 2) ∧
      (frontend5.layer_norm.isSome ↔ true = true) ∧
      (∀ ln, frontend5.layer_norm = some ln →
          ln = ⟨5, 1 / 100000, none, none⟩) ∧
      (frontend5.dropout.isSome ↔ (0 : Rat) < 1 / 4) ∧
      (∀ d, frontend5.dropout = some d → d.p = 1 / 4) :=
  init_optional_stage_presence 5 none none (1 / 2) true (1 / 4) (1 / 100000)
    none none frontend5 (by norm_num [init, frontend5])

/-- Claim C7: constructed with no feature extractor, zero dropout
probabilities, the final-norm flag off and no positional encoder,
construction succeeds and the forward pass reduces to exactly the
post-extraction layer norm, with the mask derived from the supplied
lengths. -/
theorem forward_minimal_config_single_norm (ext : Externals)
    (model_dim : Nat) (eps : Rat) (dev : Option Device) (dt : Option DType)
    (seqs : Tensor3) (seq_lens : Option SeqLens) :
    ∃ f, init model_dim none none 0 false 0 eps dev dt = .ok f ∧
      (forward ext f seqs seq_lens none).2 =
        .ok (ext.layerNormApply ⟨model_dim, eps, dev, dt⟩ seqs,
             to_padding_mask seqs seq_lens) := by
  refine ⟨⟨model_dim, none, ⟨model_dim, eps, dev, dt⟩, none, none, none, none,
    none⟩, ?_, ?_⟩
  · simp [init]
  · rfl

/-- Claim C10: the returned padding mask is exactly the value the
mask-derivation step produced from the post-extraction batch — no later
stage replaces it — and when a positional encoder is present it receives
that very mask. -/
theorem forward_mask_frame (ext : Externals)
    (self : PretrainedWav2Vec2Frontend) (seqs : Tensor3)
    (seq_lens : Option SeqLens) :
    (∃ out, (forward ext self seqs seq_lens none).2 =
        .ok (out,
          to_padding_mask (extractStage self.feature_extractor seqs seq_lens).1
            (extractStage self.feature_extractor seqs seq_lens).2)) ∧
      ∀ pe, self.pos_encoder = some pe →
        (forward ext self seqs seq_lens none).2 =
          .ok (applyOptStage self.dropout ext.dropoutApply
                (applyOptStage self.layer_norm ext.layerNormApply
                  (pe.apply
                    (applyOptStage self.post_extract_dropout ext.dropoutApply
                      (applyOptStage self.post_extract_proj ext.linearApply
                        (ext.layerNormApply self.post_extract_layer_norm
                          (extractStage self.feature_extractor seqs seq_lens).1)))
                    (to_padding_mask
                      (extractStage self.feature_extractor seqs seq_lens).1
                      (extractStage self.feature_extractor seqs seq_lens).2))),
               to_padding_mask
                 (extractStage self.feature_extractor seqs seq_lens).1
                 (extractStage self.feature_extractor seqs seq_lens).2) := by
  constructor
  · exact ⟨(pipelineSpec ext self seqs seq_lens).1,
      by rw [forward_none_eq_pipeline]; exact congrArg Except.ok (Prod.ext rfl rfl)⟩
  · intro pe hpe
    rw [forward_none_eq_pipeline]
    simp only [pipelineSpec, applyOptStage, hpe]

/-- A position encoder of dimension 4 with identity behaviour. -/
def peId : PositionEncoder :=
  ⟨4, fun t _ => t⟩

/-- A frontend whose only optional stage is the position encoder
`peId`. -/
def frontendPE : PretrainedWav2Vec2Frontend :=
  ⟨4, none, ⟨4, 1 / 100000, none, none⟩, none, none, some peId, none, none⟩

/-- Witness for C10: through `frontendPE` on a concrete batch, the
returned mask is the derived one and the position encoder receives it. -/
theorem forward_mask_frame_witness :
    (forward extId frontendPE tensor234 (some [3, 1]) none).2 =
      .ok (applyOptStage frontendPE.dropout extId.dropoutApply
            (applyOptStage frontendPE.layer_norm extId.layerNormApply
              (peId.apply
                (applyOptStage frontendPE.post_extract_dropout extId.dropoutApply
                  (applyOptStage frontendPE.post_extract_proj extId.linearApply
                    (extId.layerNormApply frontendPE.post_extract_layer_norm
                      (extractStage frontendPE.feature_extractor tensor234
                        (some [3, 1])).1)))
                (to_padding_mask
                  (extractStage frontendPE.feature_extractor tensor234
                    (some [3, 1])).1
                  (extractStage frontendPE.feature_extractor tensor234
                    (some [3, 1])).2))),
           to_padding_mask
             (extractStage frontendPE.feature_extractor tensor234
               (some [3, 1])).1
             (extractStage frontendPE.feature_extractor tensor234
               (some [3, 1])).2) :=
  (forward_mask_frame extId frontendPE tensor234 (some [3, 1])).2 peId rfl

/-- Counterexample for C8: two constructions that differ only in the
placement hints produce identical dropout stages (the dropout constructor
receives only its probability) while their layer-norm stages differ, so
the hints are not passed uniformly to every sub-stage constructor. -/
theorem init_dropout_hints_counterexample :
    (init 2 none none (1 / 2) false (1 / 2) (1 / 100000) (some Device.cpu)
          (some DType.float32)).toOption.map
        PretrainedWav2Vec2Frontend.post_extract_dropout =
      (init 2 none none (1 / 2) false (1 / 2) (1 / 100000) none
          none).toOption.map PretrainedWav2Vec2Frontend.post_extract_dropout ∧
    (init 2 none none (1 / 2) false (1 / 2) (1 / 100000) (some Device.cpu)
          (some DType.float32)).toOption.map
        PretrainedWav2Vec2Frontend.dropout =
      (init 2 none none (1 / 2) false (1 / 2) (1 / 100000) none
          none).toOption.map PretrainedWav2Vec2Frontend.dropout ∧
    (init 2 none none (1 / 2) false (1 / 2) (1 / 100000) (some Device.cpu)
          (some DType.float32)).toOption.map
        PretrainedWav2Vec2Frontend.post_extract_layer_norm ≠
      (init 2 none none (1 / 2) false (1 / 2) (1 / 100000) none
          none).toOption.map
        PretrainedWav2Vec2Frontend.post_extract_layer_norm := by
  refine ⟨?_, ?_, ?_⟩ <;> norm_num [init, Except.toOption]
  exact fun hc => nomatch hc

/-- Claim C8 (amended): the placement hints are passed through unchanged
to the layer norms and the projection; the dropout stages are constructed
from their probability alone and receive no placement hints. -/
theorem init_placement_hints_amended (model_dim : Nat)
    (fe : Option SequenceFeatureExtractor) (pe : Option PositionEncoder)
    (p1 : Rat) (lnf : Bool) (p2 : Rat) (eps : Rat) (dev : Option Device)
    (dt : Option DType) (f : PretrainedWav2Vec2Frontend)
    (h : init model_dim fe pe p1 lnf p2 eps dev dt = .ok f) :
    f.post_extract_layer_norm.device = dev ∧
      f.post_extract_layer_norm.dtype = dt ∧
      (∀ pj, f.post_extract_proj = some pj →
          pj.device = dev ∧ pj.dtype = dt) ∧
      (∀ ln, f.layer_norm = some ln → ln.device = dev ∧ ln.dtype = dt) ∧
      (∀ d, f.post_extract_dropout = some d → d = ⟨p1⟩) ∧
      (∀ d, f.dropout = some d → d = ⟨p2⟩) := by
  obtain rfl := init_ok_inv model_dim fe pe p1 lnf p2 eps dev dt f h
  refine ⟨rfl, rfl, ?_, ?_, ?_, ?_⟩
  · intro pj hpj
    by_cases hfd : featureDim fe model_dim = model_dim <;> simp [hfd] at hpj
    subst hpj
    exact ⟨rfl, rfl⟩
  · intro ln hln
    cases lnf <;> simp at hln
    subst hln
    exact ⟨rfl, rfl⟩
  · intro d hd
    by_cases h1 : 0 < p1 <;> simp [h1] at hd
    subst hd
    rfl
  · intro d hd
    by_cases h2 : 0 < p2 <;> simp [h2] at hd
    subst hd
    rfl

/-- The frontend built with hints `some Device.cpu` and
`some DType.float16` and both dropout probabilities positive. -/
def frontendHints : PretrainedWav2Vec2Frontend :=
  ⟨5, none, ⟨5, 1 / 100000, some Device.cpu, some DType.float16⟩, none,
   some ⟨1 / 2⟩, none, some ⟨5, 1 / 100000, some Device.cpu, some DType.float16⟩,
   some ⟨1 / 4⟩⟩

/-- Witness for the amended C8: with concrete hints, the layer norms
carry them and the dropout stages carry only their probabilities. -/
theorem init_placement_hints_amended_witness :
    frontendHints.post_extract_layer_norm.device = some Device.cpu ∧
      frontendHints.post_extract_layer_norm.dtype = some DType.float16 ∧
      (∀ pj, frontendHints.post_extract_proj = some pj →
          pj.device = some Device.cpu ∧ pj.dtype = some DType.float16) ∧
      (∀ ln, frontendHints.layer_norm = some ln →
          ln.device = some Device.cpu ∧ ln.dtype = some DType.float16) ∧
      (∀ d, frontendHints.post_extract_dropout = some d → d = ⟨1 / 2⟩) ∧
      (∀ d, frontendHints.dropout = some d → d = ⟨1 / 4⟩) :=
  init_placement_hints_amended 5 none none (1 / 2) true (1 / 4) (1 / 100000)
    (some Device.cpu) (some DType.float16) frontendHints
    (by norm_num [init, frontendHints])

end Wav2Vec2
